import Mathlib

/-!
Verification of the versioned task-tracking service in `src/main.py`.

The service keeps a list of task records in memory (`task_db`), authenticates
every request against a single configured secret (`validate_api_key`), and
exposes read/create/update/delete/list handlers under two versioned routers.
Each Python handler is embedded below as a pure Lean function from its inputs
and the current store to a response together with the resulting store.
-/

namespace Lab4

/-- A task record as stored in `task_db`: `task_id` (a Python `int`, hence
`Int`), `task_title`, `task_desc`, `is_finished`. -/
structure Task where
  task_id : Int
  task_title : String
  task_desc : String
  is_finished : Bool
deriving DecidableEq, Repr

/-- The `TaskCreate` pydantic model: `task_title` and `task_desc` are required
strings; `is_finished` is optional and defaults to `False`, so after parsing it
is a concrete `Bool`. -/
structure TaskCreate where
  task_title : String
  task_desc : String
  is_finished : Bool
deriving DecidableEq, Repr

/-- The `TaskUpdate` pydantic model: every field is `Optional`, `none`
meaning the field was absent from (or null in) the PATCH payload. -/
structure TaskUpdate where
  task_title : Option String
  task_desc : Option String
  is_finished : Option Bool
deriving DecidableEq, Repr

/-- Outcome of a handler: either a success with the route's configured HTTP
status code and the `data` payload of the `{"status": "ok", "data": ...}`
envelope, or an `HTTPException` with its status code and the `error` message
of its `detail`. -/
inductive Resp (α : Type) where
  | success (code : Nat) (data : α)
  | failure (code : Nat) (error : String)
deriving DecidableEq, Repr

/-- Python truthiness of an optional string: `None` and `""` are falsy. -/
def truthyStr : Option String → Bool
  | none => false
  | some s => !(s == "")

/-- Python `a or b` on optional strings, as in `header_api_key or
query_api_key`. -/
def pyOr (a b : Option String) : Option String :=
  if truthyStr a then a else b

/-- The body of `validate_api_key` (src/main.py lines 32-42): take the header
value if it is truthy, else the query value, and compare against the
configured secret; mismatch raises 403 with `{"error": "Invalid API Key"}`.
`none` models a channel from which no value was presented.  This is only the
function body: in the program the `api_key_header` security dependency runs
first and guarantees that `header_api_key` is a present, non-empty string by
the time this body executes (see `authenticate`). -/
def validate_api_key (API_KEY : String) (header_api_key query_api_key : Option String) :
    Resp String :=
  let api_key := pyOr header_api_key query_api_key
  if api_key = some API_KEY then .success 200 API_KEY
  else .failure 403 "Invalid API Key"

/-- The `api_key_header` security dependency declared at src/main.py line 27:
FastAPI's `APIKeyHeader` for the header "X-API-Key" with its default
`auto_error = True`.  It runs before `validate_api_key`: when the header is
absent or empty it rejects the request itself with 403 and detail
"Not authenticated", and otherwise passes the header value through. -/
def api_key_header (header : Option String) : Resp String :=
  match header with
  | none => .failure 403 "Not authenticated"
  | some s => if s = "" then .failure 403 "Not authenticated" else .success 200 s

/-- The complete per-request authentication of the program: the
`api_key_header` dependency runs first (its rejection short-circuits), and
only when it passes does the body of `validate_api_key` see the request,
always with a present, non-empty header value.  The query-parameter
dependency (`Query(None)` at src/main.py lines 29-30) never rejects by
itself. -/
def authenticate (API_KEY : String) (header query : Option String) : Resp String :=
  match api_key_header header with
  | .failure c e => .failure c e
  | .success _ h => validate_api_key API_KEY (some h) query

/-- A Python string is blank when `s.strip()` is empty, which holds exactly
when every character of `s` is whitespace (vacuously for the empty string). -/
def isBlank (s : String) : Bool :=
  s.data.all (fun c => c.isWhitespace)

/-- `max` of a list of ids as Python's builtin `max` computes it on a
non-empty list (the `[]` case never arises: the caller guards on
`if task_db`). -/
def listMax : List Int → Int
  | [] => 0
  | x :: xs => xs.foldl max x

/-- The seeded store: one fixture task (id=1, "Laboratory Activity" /
"Create Lab Act 2", not finished). -/
def initial_task_db : List Task :=
  [⟨1, "Laboratory Activity", "Create Lab Act 2", false⟩]

/-- `find_task_by_id` (src/main.py lines 64-68): linear scan returning the
first task whose `task_id` matches, else `None`. -/
def find_task_by_id (task_id : Int) : List Task → Option Task
  | [] => none
  | t :: ts => if t.task_id = task_id then some t else find_task_by_id task_id ts

/-- `get_task_v1` (src/main.py lines 84-91): 200 with the task, or 404
`{"error": "Task not found"}`. -/
def get_task_v1 (task_id : Int) (db : List Task) : Resp Task :=
  match find_task_by_id task_id db with
  | some t => .success 200 t
  | none => .failure 404 "Task not found"

/-- `get_task_v2` (src/main.py lines 94-101): identical logic to v1. -/
def get_task_v2 (task_id : Int) (db : List Task) : Resp Task :=
  match find_task_by_id task_id db with
  | some t => .success 200 t
  | none => .failure 404 "Task not found"

/-- `create_task_v2` (src/main.py lines 103-119): reject blank title or
description with 400; otherwise assign id `max(ids)+1` on a non-empty store
(`1` on an empty one), append, and return 201 with the new task. -/
def create_task_v2 (task : TaskCreate) (db : List Task) : Resp Task × List Task :=
  if isBlank task.task_title || isBlank task.task_desc then
    (.failure 400 "Task title and description cannot be empty", db)
  else
    let new_task_id : Int := if db ≠ [] then listMax (db.map Task.task_id) + 1 else 1
    let new_task : Task :=
      ⟨new_task_id, task.task_title, task.task_desc, task.is_finished⟩
    (.success 201 new_task, db ++ [new_task])

/-- Third step of `update_task_v2` (src/main.py lines 141-144): overwrite
`is_finished` when supplied, then return 200 with the record; `t` is the
record after the title and description steps, `ts` the tasks after it in the
store. -/
def update_fin_step (t : Task) (p : TaskUpdate) (ts : List Task) :
    Resp Task × List Task :=
  match p.is_finished with
  | some b => (.success 200 {t with is_finished := b}, {t with is_finished := b} :: ts)
  | none => (.success 200 t, t :: ts)

/-- Second step of `update_task_v2` (src/main.py lines 135-140): validate and
overwrite `task_desc` when supplied.  On a blank supplied description the 400
is raised with the store as already mutated by the title step (the dict is
updated in place). -/
def update_desc_step (t : Task) (p : TaskUpdate) (ts : List Task) :
    Resp Task × List Task :=
  match p.task_desc with
  | some s =>
    if isBlank s then (.failure 400 "Task description cannot be empty", t :: ts)
    else update_fin_step {t with task_desc := s} p ts
  | none => update_fin_step t p ts

/-- `update_task_v2` (src/main.py lines 121-144): find the first task with the
given id (404 if none), then sequentially: validate/overwrite `task_title`,
validate/overwrite `task_desc`, overwrite `is_finished`; mutations are in
place, so a later validation failure keeps earlier field assignments. -/
def update_task_v2 (task_id : Int) (p : TaskUpdate) :
    List Task → Resp Task × List Task
  | [] => (.failure 404 "Task not found", [])
  | t :: ts =>
    if t.task_id = task_id then
      match p.task_title with
      | some s =>
        if isBlank s then (.failure 400 "Task title cannot be empty", t :: ts)
        else update_desc_step {t with task_title := s} p ts
      | none => update_desc_step t p ts
    else
      let r := update_task_v2 task_id p ts
      (r.1, t :: r.2)

/-- `delete_task_v2` (src/main.py lines 146-155): find the first task with the
given id (404 if none), remove it from the store, and return 204 with an empty
body (`return None`). -/
def delete_task_v2 (task_id : Int) : List Task → Resp Unit × List Task
  | [] => (.failure 404 "Task not found", [])
  | t :: ts =>
    if t.task_id = task_id then (.success 204 (), ts)
    else
      let r := delete_task_v2 task_id ts
      (r.1, t :: r.2)

/-- The response of the list-all route: HTTP code, the `status` field, the
`data` list, and the optional `message` field. -/
structure ListResp where
  code : Nat
  status : String
  data : List Task
  message : Option String
deriving DecidableEq, Repr

/-- `get_all_tasks_v2` (src/main.py lines 157-161): on an empty store return
`{"status": "ok", "data": [], "message": "No tasks available"}`, otherwise
`{"status": "ok", "data": task_db}`; always HTTP 200, never an exception. -/
def get_all_tasks_v2 (db : List Task) : ListResp :=
  if db = [] then ⟨200, "ok", [], some "No tasks available"⟩
  else ⟨200, "ok", db, none⟩

/-- The store states reachable from the seeded fixture store by any sequence
of create, update and delete operations. -/
inductive Reachable : List Task → Prop where
  | init : Reachable initial_task_db
  | create (p : TaskCreate) {db : List Task} :
      Reachable db → Reachable (create_task_v2 p db).2
  | update (tid : Int) (p : TaskUpdate) {db : List Task} :
      Reachable db → Reachable (update_task_v2 tid p db).2
  | delete (tid : Int) {db : List Task} :
      Reachable db → Reachable (delete_task_v2 tid db).2

/-! ### Helper lemmas -/

theorem le_foldl_max (a : Int) (l : List Int) : a ≤ l.foldl max a := by
  induction l generalizing a with
  | nil => exact le_refl a
  | cons x xs ih => exact le_trans (le_max_left a x) (ih (max a x))

theorem mem_le_foldl_max {x : Int} (a : Int) {l : List Int} (h : x ∈ l) :
    x ≤ l.foldl max a := by
  induction l generalizing a with
  | nil => cases h
  | cons y ys ih =>
    rcases List.mem_cons.mp h with rfl | hy
    · exact le_trans (le_max_right a x) (le_foldl_max _ _)
    · exact ih _ hy

theorem le_listMax {x : Int} {l : List Int} (h : x ∈ l) : x ≤ listMax l := by
  cases l with
  | nil => cases h
  | cons y ys =>
    rcases List.mem_cons.mp h with rfl | hy
    · exact le_foldl_max _ _
    · exact mem_le_foldl_max _ hy

/-- On a successful create, the store gains exactly the returned task at the
end, the new id is `max(ids)+1` (or `1` on an empty store), and the new id is
strictly greater than every id already in the store. -/
theorem create_success {p : TaskCreate} {db db2 : List Task} {nt : Task}
    (h : create_task_v2 p db = (.success 201 nt, db2)) :
    db2 = db ++ [nt] ∧
    nt.task_id = (if db = [] then 1 else listMax (db.map Task.task_id) + 1) ∧
    ∀ t ∈ db, t.task_id < nt.task_id := by
  unfold create_task_v2 at h
  by_cases hb : (isBlank p.task_title || isBlank p.task_desc) = true
  · rw [if_pos hb] at h
    simp at h
  · rw [if_neg hb] at h
    simp only [Prod.mk.injEq, Resp.success.injEq] at h
    obtain ⟨⟨-, hnt⟩, hdb⟩ := h
    subst hnt
    refine ⟨hdb.symm, ?_, ?_⟩
    · by_cases hdbe : db = [] <;> simp [hdbe]
    · intro t ht
      have hne : db ≠ [] := by rintro rfl; cases ht
      have hle : t.task_id ≤ listMax (db.map Task.task_id) :=
        le_listMax (List.mem_map_of_mem Task.task_id ht)
      simp only [hne, ne_eq, not_false_eq_true, if_true]
      omega

theorem find_eq_none_iff (tid : Int) (l : List Task) :
    find_task_by_id tid l = none ↔ ∀ t ∈ l, t.task_id ≠ tid := by
  induction l with
  | nil => simp [find_task_by_id]
  | cons t ts ih =>
    by_cases h : t.task_id = tid <;> simp [find_task_by_id, h, ih]

/-! ### C1 (amended): authentication requires the secret in the header; the
query channel is never consulted -/

/-- C1 counterexample: a request presenting the configured (non-empty) secret
via the `api-key` query parameter, and via no other path, still fails.  With
a wrong non-empty header the header value masks the correct query value and
the failure body is `{"error": "Invalid API Key"}`; with the header absent or
empty the `auto_error` header dependency rejects the request before
`validate_api_key` runs, with detail "Not authenticated" rather than the
claimed body.  Each case falsifies the claim as stated. -/
theorem auth_query_masked_counterexample :
    "secret" ≠ "" ∧
    authenticate "secret" (some "wrong") (some "secret")
      = .failure 403 "Invalid API Key" ∧
    authenticate "secret" none (some "secret")
      = .failure 403 "Not authenticated" ∧
    authenticate "secret" (some "") (some "secret")
      = .failure 403 "Not authenticated" := by decide

/-- C1 (amended): authentication succeeds exactly when the `X-API-Key` header
is present, non-empty and equal to the configured secret.  A request whose
header is absent or empty is rejected 403 "Not authenticated" by the
`APIKeyHeader` dependency before `validate_api_key` runs; a request with a
wrong non-empty header fails 403 `{"error": "Invalid API Key"}`.  The
`api-key` query parameter is never consulted: the outcome is invariant under
replacing the query value by any other. -/
theorem auth_requires_header (API_KEY : String) (h q q2 : Option String) :
    authenticate API_KEY h q =
      (if truthyStr h = false then .failure 403 "Not authenticated"
       else if h = some API_KEY then .success 200 API_KEY
       else .failure 403 "Invalid API Key") ∧
    authenticate API_KEY h q = authenticate API_KEY h q2 := by
  rcases h with _ | s
  · simp [authenticate, api_key_header, truthyStr]
  · by_cases hs : s = ""
    · simp [authenticate, api_key_header, hs, truthyStr]
    · by_cases he : s = API_KEY
      · subst he
        simp [authenticate, api_key_header, hs, truthyStr, validate_api_key,
          pyOr]
      · simp [authenticate, api_key_header, hs, truthyStr, validate_api_key,
          pyOr, he]

/-! ### C2: header precedence -/

/-- C2: when both the header and the query value are present, non-empty and
different, the outcome is decided solely by whether the header equals the
configured secret, and the query value is ignored entirely (replacing it by
any other value gives the same response). -/
theorem auth_header_precedence (API_KEY s t t2 : String)
    (hs : s ≠ "") (ht : t ≠ "") (hst : s ≠ t) :
    (validate_api_key API_KEY (some s) (some t)
       = if s = API_KEY then .success 200 API_KEY
         else .failure 403 "Invalid API Key") ∧
    validate_api_key API_KEY (some s) (some t)
      = validate_api_key API_KEY (some s) (some t2) := by
  have hty : truthyStr (some s) = true := by simp [truthyStr, hs]
  constructor
  · unfold validate_api_key pyOr
    rw [if_pos hty]
    by_cases he : s = API_KEY
    · simp [he]
    · simp [he, (by simpa using he : ¬ some s = some API_KEY)]
  · unfold validate_api_key pyOr
    rw [if_pos hty, if_pos hty]

/-- Witness for `auth_header_precedence`: header "wrong", query "secret",
secret "secret" — the request fails even though the query value is correct,
and swapping the query value for "other" changes nothing. -/
theorem auth_header_precedence_witness :
    "wrong" ≠ "" ∧ "secret" ≠ "" ∧ "wrong" ≠ "secret" ∧
    ((validate_api_key "secret" (some "wrong") (some "secret")
        = if "wrong" = "secret" then .success 200 "secret"
          else .failure 403 "Invalid API Key") ∧
     validate_api_key "secret" (some "wrong") (some "secret")
       = validate_api_key "secret" (some "wrong") (some "other")) :=
  ⟨by decide, by decide, by decide,
    auth_header_precedence "secret" "wrong" "secret" "other"
      (by decide) (by decide) (by decide)⟩

/-! ### C4: create rejects blank fields without touching the store -/

/-- C4: a create request whose title is empty or whitespace-only, or whose
description is empty or whitespace-only, fails with 400 and the message
"Task title and description cannot be empty", and the store is returned
completely unchanged. -/
theorem create_blank_rejected (p : TaskCreate) (db : List Task)
    (h : isBlank p.task_title = true ∨ isBlank p.task_desc = true) :
    create_task_v2 p db
      = (.failure 400 "Task title and description cannot be empty", db) := by
  unfold create_task_v2
  rcases h with h | h <;> simp [h]

/-- Witness for `create_blank_rejected`: creating with title `" "` on the
seeded store fails with 400 and leaves the store as it was. -/
theorem create_blank_rejected_witness :
    (isBlank " " = true ∨ isBlank "desc" = true) ∧
    create_task_v2 ⟨" ", "desc", false⟩ initial_task_db
      = (.failure 400 "Task title and description cannot be empty",
         initial_task_db) :=
  ⟨Or.inl (by decide),
    create_blank_rejected ⟨" ", "desc", false⟩ initial_task_db
      (Or.inl (by decide))⟩

/-! ### C6: update of a missing id is a 404 and a no-op -/

/-- C6: updating an id that is not in the store fails with 404
`{"error": "Task not found"}` for every payload, valid or not, and the store
is returned unchanged. -/
theorem update_missing_404 (tid : Int) (p : TaskUpdate) (db : List Task)
    (h : find_task_by_id tid db = none) :
    update_task_v2 tid p db = (.failure 404 "Task not found", db) := by
  induction db with
  | nil => rfl
  | cons t ts ih =>
    unfold find_task_by_id at h
    unfold update_task_v2
    by_cases htid : t.task_id = tid
    · rw [if_pos htid] at h; cases h
    · rw [if_neg htid] at h
      rw [if_neg htid, ih h]

/-- Witness for `update_missing_404`: id 99 is absent from the seeded store,
and updating it with a blank title (an invalid payload) still yields the 404
with the store unchanged. -/
theorem update_missing_404_witness :
    find_task_by_id 99 initial_task_db = none ∧
    update_task_v2 99 ⟨some " ", none, some true⟩ initial_task_db
      = (.failure 404 "Task not found", initial_task_db) :=
  ⟨by decide,
    update_missing_404 99 ⟨some " ", none, some true⟩ initial_task_db (by decide)⟩

/-! ### C7: the list route never fails -/

/-- C7: listing always answers HTTP 200 with status "ok" and the full store in
insertion order as `data`; the "No tasks available" message is attached
exactly when the store is empty (so the empty store yields
`{"status": "ok", "data": [], "message": "No tasks available"}`). -/
theorem list_never_fails (db : List Task) :
    (get_all_tasks_v2 db).code = 200 ∧
    (get_all_tasks_v2 db).status = "ok" ∧
    (get_all_tasks_v2 db).data = db ∧
    (get_all_tasks_v2 db).message
      = (if db = [] then some "No tasks available" else none) := by
  by_cases h : db = [] <;> simp [get_all_tasks_v2, h]

/-! ### C3: id assignment and monotonicity across successive creates -/

/-- C3: a successful create assigns the new task the id `1 + max(existing
ids)` on a non-empty store and `1` on an empty one, and a second successful
create with no intervening delete assigns a strictly greater — in particular
distinct — id. -/
theorem create_id_monotone (p p2 : TaskCreate) (db db2 db3 : List Task)
    (nt nt2 : Task)
    (h : create_task_v2 p db = (.success 201 nt, db2))
    (h2 : create_task_v2 p2 db2 = (.success 201 nt2, db3)) :
    nt.task_id = (if db = [] then 1 else listMax (db.map Task.task_id) + 1) ∧
    nt.task_id < nt2.task_id ∧ nt.task_id ≠ nt2.task_id := by
  obtain ⟨hdb2, hid, -⟩ := create_success h
  obtain ⟨-, -, hlt2⟩ := create_success h2
  have hmem : nt ∈ db2 := by rw [hdb2]; simp
  have hlt := hlt2 nt hmem
  exact ⟨hid, hlt, ne_of_lt hlt⟩

/-- Witness for `create_id_monotone`: on the seeded store (max id 1) the
first create receives id 2 and the next one id 3. -/
theorem create_id_monotone_witness :
    create_task_v2 ⟨"T", "D", false⟩ initial_task_db
      = (.success 201 ⟨2, "T", "D", false⟩,
         [⟨1, "Laboratory Activity", "Create Lab Act 2", false⟩,
          ⟨2, "T", "D", false⟩]) ∧
    create_task_v2 ⟨"U", "E", true⟩
        [⟨1, "Laboratory Activity", "Create Lab Act 2", false⟩,
         ⟨2, "T", "D", false⟩]
      = (.success 201 ⟨3, "U", "E", true⟩,
         [⟨1, "Laboratory Activity", "Create Lab Act 2", false⟩,
          ⟨2, "T", "D", false⟩, ⟨3, "U", "E", true⟩]) ∧
    ((Task.mk 2 "T" "D" false).task_id
        = (if initial_task_db = [] then 1
           else listMax (initial_task_db.map Task.task_id) + 1) ∧
     (Task.mk 2 "T" "D" false).task_id < (Task.mk 3 "U" "E" true).task_id ∧
     (Task.mk 2 "T" "D" false).task_id ≠ (Task.mk 3 "U" "E" true).task_id) :=
  ⟨by decide, by decide,
    create_id_monotone ⟨"T", "D", false⟩ ⟨"U", "E", true⟩ initial_task_db
      [⟨1, "Laboratory Activity", "Create Lab Act 2", false⟩, ⟨2, "T", "D", false⟩]
      [⟨1, "Laboratory Activity", "Create Lab Act 2", false⟩, ⟨2, "T", "D", false⟩,
       ⟨3, "U", "E", true⟩]
      ⟨2, "T", "D", false⟩ ⟨3, "U", "E", true⟩ (by decide) (by decide)⟩

/-! ### C5: update is a PATCH merge -/

/-- C5: updating an existing task with every supplied title/description
non-blank succeeds with 200, where each supplied field overwrites the record
and each absent field keeps its previous value; in particular the empty patch
(no fields at all) returns 200 with the record, and the store, unchanged. -/
theorem update_patch_merge (tid : Int) (p : TaskUpdate) (db : List Task)
    (t : Task)
    (hf : find_task_by_id tid db = some t)
    (hti : ∀ s, p.task_title = some s → isBlank s = false)
    (hde : ∀ s, p.task_desc = some s → isBlank s = false) :
    (update_task_v2 tid p db).1 = .success 200
      ⟨t.task_id, p.task_title.getD t.task_title, p.task_desc.getD t.task_desc,
        p.is_finished.getD t.is_finished⟩ ∧
    update_task_v2 tid ⟨none, none, none⟩ db = (.success 200 t, db) := by
  induction db with
  | nil => cases hf
  | cons t0 ts ih =>
    obtain ⟨i0, ti0, de0, fi0⟩ := t0
    unfold find_task_by_id at hf
    by_cases h0 : i0 = tid
    · simp only [h0, if_true, eq_self_iff_true, Option.some.injEq] at hf
      subst hf
      constructor
      · rcases hp : p.task_title with _ | s
        · rcases hq : p.task_desc with _ | d
          · rcases hr : p.is_finished with _ | b <;>
              simp [update_task_v2, h0, hp, hq, hr, update_desc_step,
                update_fin_step]
          · have hd := hde d hq
            rcases hr : p.is_finished with _ | b <;>
              simp [update_task_v2, h0, hp, hq, hr, hd, update_desc_step,
                update_fin_step]
        · have hs := hti s hp
          rcases hq : p.task_desc with _ | d
          · rcases hr : p.is_finished with _ | b <;>
              simp [update_task_v2, h0, hp, hq, hr, hs, update_desc_step,
                update_fin_step]
          · have hd := hde d hq
            rcases hr : p.is_finished with _ | b <;>
              simp [update_task_v2, h0, hp, hq, hr, hs, hd, update_desc_step,
                update_fin_step]
      · simp [update_task_v2, h0, update_desc_step, update_fin_step]
    · simp only [h0, if_false, if_neg h0] at hf
      obtain ⟨ih1, ih2⟩ := ih hf
      constructor
      · simp [update_task_v2, h0, ih1]
      · simp [update_task_v2, h0, ih2]

/-- Witness for `update_patch_merge`: patching the seeded task with a new
title and `is_finished = true` (no description) yields 200 with exactly those
two fields overwritten, and the empty patch is a 200 no-op. -/
theorem update_patch_merge_witness :
    find_task_by_id 1 initial_task_db
      = some ⟨1, "Laboratory Activity", "Create Lab Act 2", false⟩ ∧
    ((update_task_v2 1 ⟨some "New", none, some true⟩ initial_task_db).1
        = .success 200 ⟨1, "New", "Create Lab Act 2", true⟩ ∧
     update_task_v2 1 ⟨none, none, none⟩ initial_task_db
        = (.success 200 ⟨1, "Laboratory Activity", "Create Lab Act 2", false⟩,
           initial_task_db)) :=
  ⟨by decide,
    update_patch_merge 1 ⟨some "New", none, some true⟩ initial_task_db
      ⟨1, "Laboratory Activity", "Create Lab Act 2", false⟩ (by decide)
      (by intro s hs; cases hs; decide) (by intro s hs; cases hs)⟩

/-! ### C8: delete removes the task and later reads 404 -/

/-- On a store with pairwise distinct ids, deleting a present id succeeds with
204 and the id is no longer findable afterwards. -/
theorem delete_found {tid : Int} :
    ∀ {db : List Task}, (db.map Task.task_id).Nodup →
      ∀ {t : Task}, find_task_by_id tid db = some t →
      (delete_task_v2 tid db).1 = .success 204 () ∧
      find_task_by_id tid (delete_task_v2 tid db).2 = none := by
  intro db
  induction db with
  | nil => intro _ t hf; cases hf
  | cons t0 ts ih =>
    intro hn t hf
    simp only [List.map_cons, List.nodup_cons] at hn
    unfold find_task_by_id at hf
    by_cases h0 : t0.task_id = tid
    · have hnone : find_task_by_id tid ts = none := by
        rw [find_eq_none_iff]
        intro u hu hut
        apply hn.1
        have hm : u.task_id ∈ ts.map Task.task_id :=
          List.mem_map_of_mem Task.task_id hu
        rw [hut, ← h0] at hm
        exact hm
      constructor
      · simp [delete_task_v2, h0]
      · simp [delete_task_v2, h0, hnone]
    · rw [if_neg h0] at hf
      obtain ⟨ih1, ih2⟩ := ih hn.2 hf
      constructor
      · simp [delete_task_v2, h0, ih1]
      · simp [delete_task_v2, find_task_by_id, h0, ih2]

/-- C8: on a store with pairwise distinct ids (the store invariant), deleting
a present id answers 204 with an empty body, and a subsequent read of the same
id fails with 404 `{"error": "Task not found"}` on both the v1 and the v2
route. -/
theorem delete_then_get_404 (tid : Int) (db : List Task) (t : Task)
    (hn : (db.map Task.task_id).Nodup)
    (hf : find_task_by_id tid db = some t) :
    (delete_task_v2 tid db).1 = .success 204 () ∧
    get_task_v1 tid (delete_task_v2 tid db).2 = .failure 404 "Task not found" ∧
    get_task_v2 tid (delete_task_v2 tid db).2 = .failure 404 "Task not found" := by
  obtain ⟨h1, h2⟩ := delete_found hn hf
  exact ⟨h1, by simp [get_task_v1, h2], by simp [get_task_v2, h2]⟩

/-- Witness for `delete_then_get_404`: deleting the seeded task (id 1) gives
204, and both read-one routes then answer 404 for id 1. -/
theorem delete_then_get_404_witness :
    (initial_task_db.map Task.task_id).Nodup ∧
    find_task_by_id 1 initial_task_db
      = some ⟨1, "Laboratory Activity", "Create Lab Act 2", false⟩ ∧
    ((delete_task_v2 1 initial_task_db).1 = .success 204 () ∧
     get_task_v1 1 (delete_task_v2 1 initial_task_db).2
       = .failure 404 "Task not found" ∧
     get_task_v2 1 (delete_task_v2 1 initial_task_db).2
       = .failure 404 "Task not found") :=
  ⟨by decide, by decide,
    delete_then_get_404 1 initial_task_db
      ⟨1, "Laboratory Activity", "Create Lab Act 2", false⟩
      (by decide) (by decide)⟩

/-! ### C9: every reachable store has pairwise distinct ids -/

/-- Create preserves distinctness of ids: the new id exceeds every existing
id, so appending it cannot introduce a duplicate. -/
theorem create_preserves_nodup (p : TaskCreate) (db : List Task)
    (hn : (db.map Task.task_id).Nodup) :
    ((create_task_v2 p db).2.map Task.task_id).Nodup := by
  unfold create_task_v2
  by_cases hb : (isBlank p.task_title || isBlank p.task_desc) = true
  · rw [if_pos hb]; exact hn
  · rw [if_neg hb]
    simp only [List.map_append, List.map_cons, List.map_nil, List.nodup_append,
      List.nodup_cons, List.not_mem_nil, not_false_eq_true, List.nodup_nil,
      and_true, true_and]
    refine ⟨hn, ?_⟩
    intro x hx
    simp only [List.mem_singleton]
    have hne : db ≠ [] := by rintro rfl; cases hx
    have hle : x ≤ listMax (db.map Task.task_id) := le_listMax hx
    simp only [hne, ne_eq, not_false_eq_true, if_true]
    omega

/-- The third update step never changes any id. -/
theorem update_fin_step_ids (t : Task) (p : TaskUpdate) (ts : List Task) :
    (update_fin_step t p ts).2.map Task.task_id
      = t.task_id :: ts.map Task.task_id := by
  unfold update_fin_step
  rcases p.is_finished with _ | b <;> simp

/-- The second update step never changes any id. -/
theorem update_desc_step_ids (t : Task) (p : TaskUpdate) (ts : List Task) :
    (update_desc_step t p ts).2.map Task.task_id
      = t.task_id :: ts.map Task.task_id := by
  unfold update_desc_step
  rcases hq : p.task_desc with _ | d
  · exact update_fin_step_ids t p ts
  · by_cases hd : isBlank d = true <;> simp [hd, update_fin_step_ids]

/-- Update never changes the multiset of ids in the store. -/
theorem update_preserves_ids (tid : Int) (p : TaskUpdate) (db : List Task) :
    (update_task_v2 tid p db).2.map Task.task_id = db.map Task.task_id := by
  induction db with
  | nil => rfl
  | cons t0 ts ih =>
    unfold update_task_v2
    by_cases h0 : t0.task_id = tid
    · rw [if_pos h0]
      rcases hp : p.task_title with _ | s
      · simp [update_desc_step_ids]
      · by_cases hs : isBlank s = true <;> simp [hs, update_desc_step_ids]
    · rw [if_neg h0]
      simp [ih]

/-- The store after a delete is a sublist of the store before it. -/
theorem delete_sublist (tid : Int) (db : List Task) :
    (delete_task_v2 tid db).2.Sublist db := by
  induction db with
  | nil => simp [delete_task_v2]
  | cons t0 ts ih =>
    unfold delete_task_v2
    by_cases h0 : t0.task_id = tid
    · rw [if_pos h0]
      exact List.sublist_cons_self t0 ts
    · rw [if_neg h0]
      exact List.Sublist.cons₂ t0 ih

/-- Delete preserves distinctness of ids. -/
theorem delete_preserves_nodup (tid : Int) (db : List Task)
    (hn : (db.map Task.task_id).Nodup) :
    ((delete_task_v2 tid db).2.map Task.task_id).Nodup :=
  hn.sublist (List.Sublist.map Task.task_id (delete_sublist tid db))

/-- C9: starting from the seeded fixture store, every store state reachable
by any sequence of create, update and delete operations has pairwise distinct
task ids. -/
theorem reachable_ids_nodup (db : List Task) (h : Reachable db) :
    (db.map Task.task_id).Nodup := by
  induction h with
  | init => decide
  | create p _ ih => exact create_preserves_nodup _ _ ih
  | update tid p _ ih => rw [update_preserves_ids]; exact ih
  | delete tid _ ih => exact delete_preserves_nodup _ _ ih

/-- Witness for `reachable_ids_nodup`: the seeded store is reachable and its
ids are distinct. -/
theorem reachable_ids_nodup_witness :
    Reachable initial_task_db ∧ (initial_task_db.map Task.task_id).Nodup :=
  ⟨Reachable.init, reachable_ids_nodup initial_task_db Reachable.init⟩

/-! ### C10: a 400 update can still mutate the store -/

/-- C10: updating an existing task with a non-blank title together with a
blank description fails with 400 citing the description, yet the store has
already been mutated: the task's title now carries the new value, because the
title is assigned before the description is validated. -/
theorem update_400_mutates (tid : Int) (db : List Task) (t : Task)
    (s d : String) (b : Option Bool)
    (hf : find_task_by_id tid db = some t)
    (hs : isBlank s = false) (hd : isBlank d = true)
    (hne : s ≠ t.task_title) :
    (update_task_v2 tid ⟨some s, some d, b⟩ db).1
      = .failure 400 "Task description cannot be empty" ∧
    find_task_by_id tid (update_task_v2 tid ⟨some s, some d, b⟩ db).2
      = some {t with task_title := s} ∧
    (update_task_v2 tid ⟨some s, some d, b⟩ db).2 ≠ db := by
  induction db with
  | nil => cases hf
  | cons t0 ts ih =>
    obtain ⟨i0, ti0, de0, fi0⟩ := t0
    unfold find_task_by_id at hf
    by_cases h0 : i0 = tid
    · simp only [h0, if_true, eq_self_iff_true, Option.some.injEq] at hf
      subst hf
      refine ⟨?_, ?_, ?_⟩
      · simp [update_task_v2, h0, hs, update_desc_step, hd]
      · simp [update_task_v2, h0, hs, update_desc_step, hd, find_task_by_id]
      · have hne2 : ¬ s = ti0 := fun hEq => hne (by simpa using hEq)
        simp [update_task_v2, h0, hs, update_desc_step, hd, hne2]
    · simp only [h0, if_false, if_neg h0] at hf
      obtain ⟨ih1, ih2, ih3⟩ := ih hf
      refine ⟨?_, ?_, ?_⟩
      · simp [update_task_v2, h0, ih1]
      · simp [update_task_v2, find_task_by_id, h0, ih2]
      · simp [update_task_v2, h0, ih3]

/-- Witness for `update_400_mutates`: patching the seeded task with title
"New" and description " " yields the 400 about the description while the
stored task's title has already become "New". -/
theorem update_400_mutates_witness :
    find_task_by_id 1 initial_task_db
      = some ⟨1, "Laboratory Activity", "Create Lab Act 2", false⟩ ∧
    isBlank "New" = false ∧ isBlank " " = true ∧
    "New" ≠ "Laboratory Activity" ∧
    ((update_task_v2 1 ⟨some "New", some " ", none⟩ initial_task_db).1
        = .failure 400 "Task description cannot be empty" ∧
     find_task_by_id 1
         (update_task_v2 1 ⟨some "New", some " ", none⟩ initial_task_db).2
       = some ⟨1, "New", "Create Lab Act 2", false⟩ ∧
     (update_task_v2 1 ⟨some "New", some " ", none⟩ initial_task_db).2
       ≠ initial_task_db) :=
  ⟨by decide, by decide, by decide, by decide,
    update_400_mutates 1 initial_task_db
      ⟨1, "Laboratory Activity", "Create Lab Act 2", false⟩
      "New" " " none (by decide) (by decide) (by decide) (by decide)⟩

end Lab4
